import Mathlib

/-!
Shallow embedding of `github_release.py` from CRS-Bot.

The module is a linear release-check pipeline: fetch the latest release tag
from the GitHub API, filter it by a configured version pattern, compare it
with the version persisted in a JSON file, and, when it is new, send a
Discord webhook notification and persist the tag.

External I/O is modelled by passing in the outcome of each call (HTTP fetch
outcome, webhook POST outcome, file content) and collecting the observable
side effects (webhook POSTs, version-file writes) in an explicit trace.
Python exceptions are modelled with `Except`; Python `None` with `Option`.
-/

namespace CRSBot

/-- Python exceptions that can arise in `github_release.py`. -/
inductive PyExc
  | valueError (msg : String)
  | requestException (msg : String)
  | httpError (status : Nat)
  | connectionError
  | keyError (key : String)
  | attributeError (msg : String)
  deriving DecidableEq, Repr

/-- JSON-like values, used for the Discord message payload built by
`send_discord_notification`. -/
inductive JVal
  | str (s : String)
  | num (n : Nat)
  | obj (fields : List (String × JVal))
  | arr (elems : List JVal)

/-- Field lookup in a JSON object value; `none` on non-objects or a missing
key. -/
def JVal.lookup (v : JVal) (key : String) : Option JVal :=
  match v with
  | .obj fields => fields.lookup key
  | _ => none

/-- List-level substring search used to model the Python `in` operator on
strings. -/
def containsSub (pat : List Char) : List Char → Bool
  | [] => pat.isEmpty
  | c :: rest => pat.isPrefixOf (c :: rest) || containsSub pat rest

/-- Model of the Python expression `pat in s` for strings. -/
def strContains (s pat : String) : Bool :=
  containsSub pat.data s.data

/-- Model of the Python string method `s.startswith(p)`. -/
def strStartsWith (s p : String) : Bool :=
  p.data.isPrefixOf s.data

/-- Ambient process environment and module-level state read by the
functions: the webhook environment variables, the test-environment flags,
and the module-level `github` display-name global loaded at import time. -/
structure Env where
  discordWebhookUrl : Option String
  inputDiscordWebhookUrl : Option String
  testEnv : Option String
  testErrorType : Option String
  githubName : String

/-- Configuration dictionary fields used by the release-check functions.
The compiled version-pattern regex is modelled as the Boolean predicate
its anchored match denotes on a tag string. -/
structure Config where
  repository : String
  name : String
  versionPattern : String → Bool
  versionFile : String
  webhookUrl : Option String
  color : Option Nat
  footerText : Option String

/-- Python truthiness filter on an optional string: `getenv` results and
config values are used only when non-empty. -/
def truthy : Option String → Option String
  | none => none
  | some s => if s = "" then none else some s

/-- Embedding of `get_discord_webhook_url`: first non-empty value among the
DISCORD_WEBHOOK_URL variable, the INPUT_DISCORD_WEBHOOK_URL variable, and
the webhook value of the config file. -/
def get_discord_webhook_url (env : Env) (config : Config) : Option String :=
  match truthy env.discordWebhookUrl with
  | some url => some url
  | none =>
    match truthy env.inputDiscordWebhookUrl with
    | some url => some url
    | none => truthy config.webhookUrl

/-- Content of the version file on disk: missing, unparseable as JSON,
parseable JSON that is not an object, or a JSON object whose string fields
are given as an association list. -/
inductive StoredFile
  | absent
  | invalid
  | nonObject
  | object (fields : List (String × String))
  deriving DecidableEq, Repr

/-- Embedding of `load_last_version`. A missing file and a JSON decode
failure both collapse to `none` (the decode error is caught); a JSON value
without a `get` method raises `AttributeError`, which is not caught; an
object answers with its `last_version` field, `none` when the key is
missing. -/
def load_last_version (stored : StoredFile) : Except PyExc (Option String) :=
  match stored with
  | .absent => .ok none
  | .invalid => .ok none
  | .nonObject => .error (.attributeError "get")
  | .object fields => .ok (fields.lookup "last_version")

/-- Embedding of `save_last_version`: writes a fresh two-field object with
the version and the current timestamp, fully replacing the prior content. -/
def save_last_version (version : String) (now : String) (_prev : StoredFile) :
    StoredFile :=
  .object [("last_version", version), ("last_check", now)]

/-- Body of the HTTP response from the release endpoint: unparseable JSON
or a JSON object with string fields. -/
inductive Body
  | invalid
  | object (fields : List (String × String))
  deriving DecidableEq, Repr

/-- Outcome of the `session.get` call in `get_latest_release`: a transport
error raised by the HTTP client, or a response with a status code and a
body. -/
inductive FetchOutcome
  | transportError
  | response (status : Nat) (body : Body)
  deriving DecidableEq, Repr

/-- Embedding of `get_latest_release`. Transport errors, 4xx or 5xx
statuses (via `raise_for_status`) and unparseable bodies all raise
`requests.RequestException` subclasses, which the handler collapses to
`none`; but the final `data[tag_name]` subscript on an object without the
key raises `KeyError`, which the handler does not catch. -/
def get_latest_release (fetch : FetchOutcome) : Except PyExc (Option String) :=
  match fetch with
  | .transportError => .ok none
  | .response status body =>
    if 400 ≤ status ∧ status < 600 then .ok none
    else
      match body with
      | .invalid => .ok none
      | .object fields =>
        match fields.lookup "tag_name" with
        | some tag => .ok (some tag)
        | none => .error (.keyError "tag_name")

/-- Outcome of the webhook POST in `send_discord_notification`: a response
with a status code, a connection error, or another request error. -/
inductive PostOutcome
  | status (code : Nat)
  | connError
  | otherError
  deriving DecidableEq, Repr

/-- Exception produced by the POST together with `raise_for_status`:
4xx and 5xx statuses raise `HTTPError`, transport failures raise their
own `RequestException` subclasses, 2xx and 3xx raise nothing. -/
def postExc : PostOutcome → Option PyExc
  | .status code =>
    if 400 ≤ code ∧ code < 600 then some (.httpError code) else none
  | .connError => some .connectionError
  | .otherError => some (.requestException "request failed")

/-- Test for the `HTTPError` class of an exception value. -/
def isHttpError : PyExc → Bool
  | .httpError _ => true
  | _ => false

/-- Test for the `ConnectionError` class of an exception value. -/
def isConnectionError : PyExc → Bool
  | .connectionError => true
  | _ => false

/-- Default embed color used when the config has no color value. -/
def defaultColor : Nat := 5814783

/-- Default footer text used when the config has no footer value. -/
def defaultFooter : String := "GitHub Release Bot"

/-- The single embed object built by `send_discord_notification`: a title
with the version, a description with the module-level display name, a
color and a footer text. -/
def buildEmbed (version githubName : String) (color : Nat)
    (footerText : String) : JVal :=
  .obj [("title", .str ("New Release Available: " ++ version)),
        ("description",
          .str ("A new version of " ++ githubName ++ " has been released!")),
        ("color", .num color),
        ("footer", .obj [("text", .str footerText)])]

/-- The full webhook payload: one embed in the `embeds` array. -/
def buildMessage (version githubName : String) (color : Nat)
    (footerText : String) : JVal :=
  .obj [("embeds", .arr [buildEmbed version githubName color footerText])]

/-- Observable side effects of a release check: a webhook POST with its
payload, or a write of the version file. -/
inductive Effect
  | post (url : String) (message : JVal)
  | saveVersion (path : String) (version : String)

/-- Number of webhook POSTs in an effect trace. -/
def countPosts (effects : List Effect) : Nat :=
  (effects.filter fun e =>
    match e with
    | .post _ _ => true
    | _ => false).length

/-- Number of version-file writes in an effect trace. -/
def countSaves (effects : List Effect) : Nat :=
  (effects.filter fun e =>
    match e with
    | .saveVersion _ _ => true
    | _ => false).length

/-- Embedding of `send_discord_notification`. Validates the version and
the resolved webhook URL before any POST; builds the embed payload; makes
exactly one POST; on a request error, the test-environment branches may
re-raise or swallow the error, while the production branch re-raises
(after replacing the exception when the URL lacks the Discord prefix). -/
def send_discord_notification (env : Env) (config : Config)
    (version : Option String) (outcome : PostOutcome) :
    List Effect × Except PyExc Bool :=
  match version with
  | none => ([], .error (.valueError "Version string cannot be None"))
  | some v =>
    match get_discord_webhook_url env config with
    | none => ([], .error (.valueError "Discord webhook URL is required"))
    | some webhook_url =>
      let is_test_env := env.testEnv == some "true"
      let color := config.color.getD defaultColor
      let footer_text := config.footerText.getD defaultFooter
      let message := buildMessage v env.githubName color footer_text
      let effects := [Effect.post webhook_url message]
      match postExc outcome with
      | none => (effects, .ok true)
      | some e =>
        if is_test_env then
          let error_type := env.testErrorType.getD "request"
          if error_type == "http" && isHttpError e then
            (effects, .error e)
          else if error_type == "connection" && isConnectionError e then
            (effects, .error e)
          else if error_type == "request"
              && !(strStartsWith webhook_url "https://discord.com/api/webhooks/") then
            (effects, .error (.requestException ("Invalid webhook URL: " ++ webhook_url)))
          else
            (effects, .ok false)
        else
          if !(strStartsWith webhook_url "https://discord.com/api/webhooks/") then
            (effects, .error (.requestException ("Invalid webhook URL: " ++ webhook_url)))
          else
            (effects, .error e)

/-- Result of one invocation of the orchestrator: the effect trace, the
normal or exceptional termination, and the version-file content after the
run. -/
structure CheckResult where
  effects : List Effect
  result : Except PyExc Unit
  store : StoredFile

/-- Embedding of `check_for_new_release`: fetch, stop on an absent or
falsy tag, filter by the version pattern, compare with the stored version,
and on a difference notify and then persist; exceptions from the notifier
propagate before the persist step runs. -/
def check_for_new_release (env : Env) (cfg : Config) (fetch : FetchOutcome)
    (post : PostOutcome) (now : String) (stored : StoredFile) : CheckResult :=
  match get_latest_release fetch with
  | .error e => ⟨[], .error e, stored⟩
  | .ok none => ⟨[], .ok (), stored⟩
  | .ok (some latest) =>
    if latest = "" then ⟨[], .ok (), stored⟩
    else if !(cfg.versionPattern latest) then ⟨[], .ok (), stored⟩
    else
      match load_last_version stored with
      | .error e => ⟨[], .error e, stored⟩
      | .ok last =>
        if last ≠ some latest then
          match send_discord_notification env cfg (some latest) post with
          | (effs, .error e) => ⟨effs, .error e, stored⟩
          | (effs, .ok _) =>
            ⟨effs ++ [.saveVersion cfg.versionFile latest], .ok (),
              save_last_version latest now stored⟩
        else ⟨[], .ok (), stored⟩

/-! Concrete sample environments and configurations used to instantiate
hypotheses at explicit inputs. -/

/-- Sample configuration: monitors the tag v4.0.0, with a Discord-hosted
webhook URL in the config file and no color or footer overrides. -/
def sampleCfg : Config where
  repository := "coreruleset/coreruleset"
  name := "CRS"
  versionPattern := fun s => s == "v4.0.0"
  versionFile := "data/last_version.json"
  webhookUrl := some "https://discord.com/api/webhooks/123/abc"
  color := none
  footerText := none

/-- Production environment: no test flags, no webhook environment
variables. -/
def prodEnv : Env where
  discordWebhookUrl := none
  inputDiscordWebhookUrl := none
  testEnv := none
  testErrorType := none
  githubName := "CRS"

/-- Test environment: TEST_ENV is set to true, TEST_ERROR_TYPE is unset. -/
def testingEnv : Env where
  discordWebhookUrl := none
  inputDiscordWebhookUrl := none
  testEnv := some "true"
  testErrorType := none
  githubName := "CRS"

/-- Configuration with no webhook URL anywhere. -/
def noWebhookCfg : Config where
  repository := "coreruleset/coreruleset"
  name := "CRS"
  versionPattern := fun s => s == "v4.0.0"
  versionFile := "data/last_version.json"
  webhookUrl := none
  color := none
  footerText := none

/-! Helper lemmas shared by the claim theorems. -/

/-- POST count distributes over trace concatenation. -/
theorem countPosts_append (l₁ l₂ : List Effect) :
    countPosts (l₁ ++ l₂) = countPosts l₁ + countPosts l₂ := by
  simp [countPosts]

/-- A single version-file write contributes no POST. -/
theorem countPosts_save (path version : String) :
    countPosts [Effect.saveVersion path version] = 0 := rfl

/-- A single POST effect counts as one POST. -/
theorem countPosts_post_singleton (url : String) (m : JVal) :
    countPosts [Effect.post url m] = 1 := rfl

/-- A single POST effect contributes no version-file write. -/
theorem countSaves_post_singleton (url : String) (m : JVal) :
    countSaves [Effect.post url m] = 0 := rfl

/-- The notifier on a successful POST outcome reports True after exactly
the one POST carrying the built payload. -/
theorem send_success_eq (env : Env) (cfg : Config) (v : String)
    (outcome : PostOutcome) (url : String)
    (hurl : get_discord_webhook_url env cfg = some url)
    (hpost : postExc outcome = none) :
    send_discord_notification env cfg (some v) outcome
      = ([Effect.post url (buildMessage v env.githubName
          (cfg.color.getD defaultColor) (cfg.footerText.getD defaultFooter))],
        .ok true) := by
  simp only [send_discord_notification, hurl, hpost]

/-- Once validation passes, the notifier emits exactly one POST carrying
the built payload, whatever the POST outcome and environment flags. -/
theorem send_effects_eq (env : Env) (cfg : Config) (v : String)
    (outcome : PostOutcome) (url : String)
    (hurl : get_discord_webhook_url env cfg = some url) :
    (send_discord_notification env cfg (some v) outcome).1
      = [Effect.post url (buildMessage v env.githubName
          (cfg.color.getD defaultColor) (cfg.footerText.getD defaultFooter))] := by
  simp only [send_discord_notification, hurl]
  cases hpe : postExc outcome with
  | none => rfl
  | some e =>
    by_cases ht : env.testEnv == some "true" <;> simp only [ht] <;>
      split_ifs <;> rfl

/-- On the notify path of the orchestrator, the run is the notifier call
followed, on non-exceptional outcomes, by the persist step. -/
theorem check_notify_branch (env : Env) (cfg : Config) (fetch : FetchOutcome)
    (post : PostOutcome) (now T : String) (stored : StoredFile)
    (last : Option String)
    (hfetch : get_latest_release fetch = .ok (some T))
    (hT : T ≠ "")
    (hpat : cfg.versionPattern T = true)
    (hload : load_last_version stored = .ok last)
    (hdiff : last ≠ some T) :
    check_for_new_release env cfg fetch post now stored
      = match send_discord_notification env cfg (some T) post with
        | (effs, .error e) => ⟨effs, .error e, stored⟩
        | (effs, .ok _) => ⟨effs ++ [.saveVersion cfg.versionFile T], .ok (),
            save_last_version T now stored⟩ := by
  simp only [check_for_new_release, hfetch, hT, hpat, hload, hdiff,
    if_neg, if_pos, Bool.not_true, Bool.false_eq_true, ite_false, ite_true,
    ne_eq, not_false_eq_true]

/-- On the same-version path of the orchestrator, the run is a no-op. -/
theorem check_same_version_branch (env : Env) (cfg : Config)
    (fetch : FetchOutcome) (post : PostOutcome) (now T : String)
    (stored : StoredFile)
    (hfetch : get_latest_release fetch = .ok (some T))
    (hT : T ≠ "")
    (hpat : cfg.versionPattern T = true)
    (hload : load_last_version stored = .ok (some T)) :
    check_for_new_release env cfg fetch post now stored
      = ⟨[], .ok (), stored⟩ := by
  simp only [check_for_new_release, hfetch, hT, hpat, hload,
    Bool.not_true, Bool.false_eq_true, ite_false, ite_true,
    ne_eq, not_true_eq_false, if_neg, if_pos, not_false_eq_true]

/-! Claim theorems. -/

/-- C5: round-trip of the version store: for every version string, saving
it and then loading returns that version, the saved record fully replacing
any prior content of the file. -/
theorem save_load_round_trip (v now : String) (prev : StoredFile) :
    load_last_version (save_last_version v now prev) = .ok (some v) := by
  simp [load_last_version, save_last_version, List.lookup]

/-- C6: loading from a missing version file and from a file whose content
is not parseable JSON both return an absent version without raising. -/
theorem load_absent_or_corrupt_returns_none :
    load_last_version .absent = .ok none ∧
    load_last_version .invalid = .ok none :=
  ⟨rfl, rfl⟩

/-- C9: the notifier rejects before sending anything: an absent version
raises a ValueError, and an unresolvable webhook URL raises a ValueError,
in both cases with an empty effect trace, so no POST is made. -/
theorem discord_rejects_before_any_post (env : Env) (cfg : Config)
    (outcome : PostOutcome) (v : String)
    (hurl : get_discord_webhook_url env cfg = none) :
    send_discord_notification env cfg none outcome
        = ([], .error (.valueError "Version string cannot be None"))
    ∧ send_discord_notification env cfg (some v) outcome
        = ([], .error (.valueError "Discord webhook URL is required")) := by
  refine ⟨rfl, ?_⟩
  simp only [send_discord_notification, hurl]

/-- Witness for C9 at a concrete environment with no webhook URL in any
resolution source. -/
theorem discord_rejects_before_any_post_witness :
    send_discord_notification prodEnv noWebhookCfg none (.status 200)
        = ([], .error (.valueError "Version string cannot be None"))
    ∧ send_discord_notification prodEnv noWebhookCfg (some "v4.0.0") (.status 200)
        = ([], .error (.valueError "Discord webhook URL is required")) :=
  discord_rejects_before_any_post prodEnv noWebhookCfg (.status 200) "v4.0.0" rfl

/-- C10: a version file that parses as a JSON object without the
last_version key loads as an absent version without raising, and the
orchestrator then treats the next matching fetched tag as new: the run
posts a notification. -/
theorem load_missing_key_treated_as_new
    (fields : List (String × String)) (env : Env) (cfg : Config)
    (fetch : FetchOutcome) (post : PostOutcome) (now T url : String)
    (hkey : fields.lookup "last_version" = none)
    (hfetch : get_latest_release fetch = .ok (some T))
    (hT : T ≠ "")
    (hpat : cfg.versionPattern T = true)
    (hurl : get_discord_webhook_url env cfg = some url) :
    load_last_version (.object fields) = .ok none ∧
    countPosts (check_for_new_release env cfg fetch post now
      (.object fields)).effects = 1 := by
  have hload : load_last_version (.object fields) = .ok none := by
    simp [load_last_version, hkey]
  refine ⟨hload, ?_⟩
  rw [check_notify_branch env cfg fetch post now T (.object fields) none
    hfetch hT hpat hload (by simp)]
  have heff := send_effects_eq env cfg T post url hurl
  rcases hs : send_discord_notification env cfg (some T) post with ⟨effs, res⟩
  rw [hs] at heff
  cases res with
  | error e =>
    have heq : effs = [Effect.post url (buildMessage T env.githubName
        (cfg.color.getD defaultColor) (cfg.footerText.getD defaultFooter))] := heff
    simp [heq, countPosts_post_singleton]
  | ok b =>
    have heq : effs = [Effect.post url (buildMessage T env.githubName
        (cfg.color.getD defaultColor) (cfg.footerText.getD defaultFooter))] := heff
    rw [heq]
    rfl

/-- Witness for C10: a stored object with only an unrelated key, a 2xx
fetch of the matching tag v4.0.0, and a resolvable webhook URL. -/
theorem load_missing_key_treated_as_new_witness :
    load_last_version (.object [("note", "x")]) = .ok none ∧
    countPosts (check_for_new_release prodEnv sampleCfg
      (.response 200 (.object [("tag_name", "v4.0.0")])) (.status 204)
      "2024-01-01T00:00:00" (.object [("note", "x")])).effects = 1 :=
  load_missing_key_treated_as_new [("note", "x")] prodEnv sampleCfg
    (.response 200 (.object [("tag_name", "v4.0.0")])) (.status 204)
    "2024-01-01T00:00:00" "v4.0.0" "https://discord.com/api/webhooks/123/abc"
    rfl rfl (by decide) rfl rfl

/-- C2: for every fetched tag that does not match the version pattern, the
check sends no notification, writes nothing to the version store, and
terminates normally, whatever the stored version. -/
theorem check_pattern_mismatch_noop (env : Env) (cfg : Config)
    (fetch : FetchOutcome) (post : PostOutcome) (now T : String)
    (stored : StoredFile)
    (hfetch : get_latest_release fetch = .ok (some T))
    (hpat : cfg.versionPattern T = false) :
    check_for_new_release env cfg fetch post now stored
      = ⟨[], .ok (), stored⟩ := by
  by_cases hT : T = "" <;>
    simp [check_for_new_release, hfetch, hT, hpat]

/-- Witness for C2: the upstream tag v3.5.0 does not match the monitored
pattern; the run is a no-op on an absent store. -/
theorem check_pattern_mismatch_noop_witness :
    check_for_new_release prodEnv sampleCfg
      (.response 200 (.object [("tag_name", "v3.5.0")])) (.status 200)
      "2024-01-01T00:00:00" .absent = ⟨[], .ok (), .absent⟩ :=
  check_pattern_mismatch_noop prodEnv sampleCfg
    (.response 200 (.object [("tag_name", "v3.5.0")])) (.status 200)
    "2024-01-01T00:00:00" "v3.5.0" .absent rfl rfl

/-- C1: running the check twice with the same upstream tag and no external
change between runs posts exactly one notification, on the first run
(whose fetched tag differs from the stored version), and none on the
second run, because the first run persists the tag and the second compare
finds it equal. -/
theorem check_twice_posts_once (env : Env) (cfg : Config)
    (fetch : FetchOutcome) (post : PostOutcome) (now1 now2 T url : String)
    (stored : StoredFile) (last : Option String)
    (hfetch : get_latest_release fetch = .ok (some T))
    (hT : T ≠ "")
    (hpat : cfg.versionPattern T = true)
    (hload : load_last_version stored = .ok last)
    (hdiff : last ≠ some T)
    (hurl : get_discord_webhook_url env cfg = some url)
    (hpost : postExc post = none) :
    countPosts (check_for_new_release env cfg fetch post now1 stored).effects = 1
    ∧ countPosts (check_for_new_release env cfg fetch post now2
        (check_for_new_release env cfg fetch post now1 stored).store).effects
      = 0 := by
  have hsend := send_success_eq env cfg T post url hurl hpost
  have hrun1 : check_for_new_release env cfg fetch post now1 stored
      = ⟨[Effect.post url (buildMessage T env.githubName
            (cfg.color.getD defaultColor) (cfg.footerText.getD defaultFooter)),
          Effect.saveVersion cfg.versionFile T], .ok (),
          save_last_version T now1 stored⟩ := by
    rw [check_notify_branch env cfg fetch post now1 T stored last
      hfetch hT hpat hload hdiff, hsend]
    rfl
  have hload2 : load_last_version (save_last_version T now1 stored)
      = .ok (some T) := by
    simp [load_last_version, save_last_version, List.lookup]
  have hrun2 := check_same_version_branch env cfg fetch post now2 T
    (save_last_version T now1 stored) hfetch hT hpat hload2
  constructor
  · rw [hrun1]
    rfl
  · rw [hrun1]
    show countPosts (check_for_new_release env cfg fetch post now2
      (save_last_version T now1 stored)).effects = 0
    rw [hrun2]
    rfl

/-- Witness for C1: absent store, upstream tag v4.0.0 matching the
pattern, resolvable webhook URL, 204 POST outcome; the first run posts
once, the second run posts nothing. -/
theorem check_twice_posts_once_witness :
    countPosts (check_for_new_release prodEnv sampleCfg
      (.response 200 (.object [("tag_name", "v4.0.0")])) (.status 204)
      "2024-01-01T00:00:00" .absent).effects = 1
    ∧ countPosts (check_for_new_release prodEnv sampleCfg
        (.response 200 (.object [("tag_name", "v4.0.0")])) (.status 204)
        "2024-01-02T00:00:00"
        (check_for_new_release prodEnv sampleCfg
          (.response 200 (.object [("tag_name", "v4.0.0")])) (.status 204)
          "2024-01-01T00:00:00" .absent).store).effects = 0 :=
  check_twice_posts_once prodEnv sampleCfg
    (.response 200 (.object [("tag_name", "v4.0.0")])) (.status 204)
    "2024-01-01T00:00:00" "2024-01-02T00:00:00" "v4.0.0"
    "https://discord.com/api/webhooks/123/abc" .absent none
    rfl (by decide) rfl rfl (by decide) rfl rfl

/-- C3: when the notifier raises, the version file is not updated and its
content is preserved, the run terminates with that exception, and a later
run on the unchanged store posts the notification again for the same
fetched version. -/
theorem notify_failure_preserves_store (env : Env) (cfg : Config)
    (fetch : FetchOutcome) (post : PostOutcome) (now1 now2 T url : String)
    (stored : StoredFile) (last : Option String) (e : PyExc)
    (hfetch : get_latest_release fetch = .ok (some T))
    (hT : T ≠ "")
    (hpat : cfg.versionPattern T = true)
    (hload : load_last_version stored = .ok last)
    (hdiff : last ≠ some T)
    (hurl : get_discord_webhook_url env cfg = some url)
    (hsend : (send_discord_notification env cfg (some T) post).2 = .error e) :
    (check_for_new_release env cfg fetch post now1 stored).store = stored
    ∧ countSaves (check_for_new_release env cfg fetch post now1 stored).effects = 0
    ∧ (check_for_new_release env cfg fetch post now1 stored).result = .error e
    ∧ countPosts (check_for_new_release env cfg fetch post now2 stored).effects
      = 1 := by
  have heff := send_effects_eq env cfg T post url hurl
  rcases hs : send_discord_notification env cfg (some T) post with ⟨effs, res⟩
  rw [hs] at heff hsend
  have heq : effs = [Effect.post url (buildMessage T env.githubName
      (cfg.color.getD defaultColor) (cfg.footerText.getD defaultFooter))] := heff
  have hres : res = .error e := hsend
  have hrun : ∀ now : String, check_for_new_release env cfg fetch post now stored
      = ⟨effs, .error e, stored⟩ := by
    intro now
    rw [check_notify_branch env cfg fetch post now T stored last
      hfetch hT hpat hload hdiff, hs, hres]
  refine ⟨?_, ?_, ?_, ?_⟩
  · rw [hrun now1]
  · rw [hrun now1]
    show countSaves effs = 0
    rw [heq]
    rfl
  · rw [hrun now1]
  · rw [hrun now2]
    show countPosts effs = 1
    rw [heq]
    rfl

/-- Witness for C3: a fatal context (no TEST_ENV), a 500 POST outcome on a
Discord-prefixed webhook URL; the store stays absent, no write happens,
the HTTPError propagates, and a second run posts again. -/
theorem notify_failure_preserves_store_witness :
    (check_for_new_release prodEnv sampleCfg
      (.response 200 (.object [("tag_name", "v4.0.0")])) (.status 500)
      "2024-01-01T00:00:00" .absent).store = .absent
    ∧ countSaves (check_for_new_release prodEnv sampleCfg
        (.response 200 (.object [("tag_name", "v4.0.0")])) (.status 500)
        "2024-01-01T00:00:00" .absent).effects = 0
    ∧ (check_for_new_release prodEnv sampleCfg
        (.response 200 (.object [("tag_name", "v4.0.0")])) (.status 500)
        "2024-01-01T00:00:00" .absent).result = .error (.httpError 500)
    ∧ countPosts (check_for_new_release prodEnv sampleCfg
        (.response 200 (.object [("tag_name", "v4.0.0")])) (.status 500)
        "2024-01-02T00:00:00" .absent).effects = 1 :=
  notify_failure_preserves_store prodEnv sampleCfg
    (.response 200 (.object [("tag_name", "v4.0.0")])) (.status 500)
    "2024-01-01T00:00:00" "2024-01-02T00:00:00" "v4.0.0"
    "https://discord.com/api/webhooks/123/abc" .absent none (.httpError 500)
    rfl (by decide) rfl rfl (by decide) rfl rfl

/-- C4 counterexample: the fetcher is not exception-free over its
outcomes: a 2xx response whose parseable JSON object lacks the tag field
makes get_latest_release raise a KeyError instead of returning an absent
result. -/
theorem get_latest_release_raises_on_missing_tag :
    ¬ (∀ fetch : FetchOutcome, ∃ r : Option String,
        get_latest_release fetch = .ok r) := by
  intro h
  obtain ⟨r, hr⟩ := h (.response 200 (.object []))
  have hv : get_latest_release (.response 200 (.object []))
      = .error (.keyError "tag_name") := rfl
  rw [hv] at hr
  exact Except.noConfusion hr

/-- C4 amended: transport errors, 4xx and 5xx statuses, and unparseable
response bodies all collapse to an absent result without raising; only a
2xx response whose object body lacks the tag field escapes this policy by
raising KeyError. -/
theorem get_latest_release_failure_collapse (status : Nat) (body : Body) :
    get_latest_release .transportError = .ok none
    ∧ (400 ≤ status → status < 600 →
        get_latest_release (.response status body) = .ok none)
    ∧ (¬ (400 ≤ status ∧ status < 600) →
        get_latest_release (.response status .invalid) = .ok none) := by
  refine ⟨rfl, ?_, ?_⟩
  · intro h1 h2
    simp [get_latest_release, h1, h2]
  · intro h
    simp [get_latest_release, h]

/-- Witness for C4 amended: a 404 with a JSON body and a 200 with an
unparseable body both collapse to an absent result. -/
theorem get_latest_release_failure_collapse_witness :
    get_latest_release (.response 404 (.object [("message", "Not Found")]))
      = .ok none
    ∧ get_latest_release (.response 200 .invalid) = .ok none :=
  ⟨(get_latest_release_failure_collapse 404
      (.object [("message", "Not Found")])).2.1 (by decide) (by decide),
   (get_latest_release_failure_collapse 200 .invalid).2.2 (by decide)⟩

/-- C7 counterexample: in the production context (no TEST_ENV) a 429
response makes the notifier re-raise the HTTPError rather than report
False. -/
theorem discord_429_production_raises :
    (send_discord_notification prodEnv sampleCfg (some "v4.0.0")
      (.status 429)).2 = .error (.httpError 429)
    ∧ (send_discord_notification prodEnv sampleCfg (some "v4.0.0")
      (.status 429)).2 ≠ .ok false := by
  have hval : (send_discord_notification prodEnv sampleCfg (some "v4.0.0")
      (.status 429)).2 = .error (.httpError 429) := rfl
  refine ⟨hval, ?_⟩
  rw [hval]
  exact fun h => Except.noConfusion h

/-- C7 amended: under the test-environment flag with the default error
type and a Discord-prefixed resolved webhook URL, a 429 response is
reported to the caller as not sent (False) after exactly one POST, with no
retry; in a fatal context the HTTPError propagates instead. -/
theorem discord_429_testenv_returns_false (env : Env) (cfg : Config)
    (v url : String)
    (hurl : get_discord_webhook_url env cfg = some url)
    (hpre : strStartsWith url "https://discord.com/api/webhooks/" = true)
    (htest : env.testEnv = some "true")
    (htype : env.testErrorType.getD "request" = "request") :
    (send_discord_notification env cfg (some v) (.status 429)).2 = .ok false
    ∧ countPosts (send_discord_notification env cfg (some v)
        (.status 429)).1 = 1 := by
  have hpe : postExc (.status 429) = some (.httpError 429) := rfl
  simp only [send_discord_notification, hurl, hpe, htest, htype]
  simp [hpre, isHttpError, isConnectionError, countPosts_post_singleton]

/-- Witness for C7 amended: the test environment with the sample config
reports False on a 429 after one POST. -/
theorem discord_429_testenv_returns_false_witness :
    (send_discord_notification testingEnv sampleCfg (some "v4.0.0")
      (.status 429)).2 = .ok false
    ∧ countPosts (send_discord_notification testingEnv sampleCfg
        (some "v4.0.0") (.status 429)).1 = 1 :=
  discord_429_testenv_returns_false testingEnv sampleCfg "v4.0.0"
    "https://discord.com/api/webhooks/123/abc" rfl (by decide) rfl rfl

/-- C8: the embed built for version v4.0.0 carries no timestamp field,
its description holds the display name and neither the version nor a
release URL, and the version appears in the title instead; this diverges
from the documented message shape and from the assertions of the
repository test for the message format. -/
theorem discord_message_shape_divergence :
    (buildEmbed "v4.0.0" "Test Repo" 5814783 "GitHub Release Bot").lookup
      "timestamp" = none
    ∧ (buildEmbed "v4.0.0" "Test Repo" 5814783 "GitHub Release Bot").lookup
      "description" = some (.str "A new version of Test Repo has been released!")
    ∧ strContains "A new version of Test Repo has been released!" "v4.0.0" = false
    ∧ strContains "A new version of Test Repo has been released!" "releases/tag"
      = false
    ∧ (buildEmbed "v4.0.0" "Test Repo" 5814783 "GitHub Release Bot").lookup
      "title" = some (.str "New Release Available: v4.0.0") :=
  ⟨rfl, rfl, by decide, by decide, rfl⟩

end CRSBot
